import Mathlib

/-!
Shallow embedding of the JobsHub-API authentication subsystem:
src/models/userModel.js (user schema, password hooks, reset-token
generator) and src/controllers/authController.js (signUp, login, protect,
forgetPassword, resetPassword, updatePassword).

Conventions of the embedding:
- JS `undefined` on a field or request-body entry is `Option.none`.
- Timestamps carried as `Nat`: milliseconds since the epoch for values
  produced by `Date.now` / `Date.getTime`, seconds for a JWT `iat`.
- External cryptographic primitives (bcrypt hashing, the sha256 digest,
  bcrypt.compare, crypto.randomBytes) are inputs: hash functions are
  passed as `String → String` parameters, the comparison as a
  `String → String → Bool` parameter, and the random raw token as a
  plain argument. Theorems that need the hash to separate distinct
  inputs assume `Function.Injective` explicitly.
- The Mongo store is modelled per user: lookups are function parameters
  and each operation returns the persisted record next to its response.
-/

namespace JobsHub

/-- A user document as declared by the schema in src/models/userModel.js.
Optional fields model JS undefined. The email-format check
(validator.isEmail), the lowercase normalisation and the unique index are
enforced by the external store layer and are elided here; no claim in
scope depends on them. -/
structure UserDoc where
  id : Nat
  name : Option String
  email : Option String
  password : Option String
  passwordConfirm : Option String
  role : String
  passwordChangedAt : Option Nat
  passwordResetToken : Option String
  passwordResetExpires : Option Nat
deriving Repr, DecidableEq

/-- JS truthiness of an optional string: undefined and the empty string
are falsy, everything else truthy. -/
def truthy : Option String → Bool
  | none => false
  | some s => !s.isEmpty

/-- userSchema.methods.changedPasswordAfter (userModel.js lines 69-76):
true when tokenIssuedAt, in seconds, is strictly before passwordChangedAt
converted from milliseconds to seconds; false when passwordChangedAt is
absent. The JS comparison tokenIssuedAt < getTime() / 1000 is exact
rational arithmetic, rendered as tokenIssuedAt * 1000 < getTime(). -/
def changedPasswordAfter (u : UserDoc) (tokenIssuedAt : Nat) : Bool :=
  match u.passwordChangedAt with
  | some changedAtMs => decide (tokenIssuedAt * 1000 < changedAtMs)
  | none => false

/-- userSchema.methods.createPasswordResetToken (userModel.js lines
101-116). The 32 random bytes from crypto.randomBytes enter as rawToken;
sha256 is the digest used to derive the stored hash. Sets the stored hash
and a 10-minute absolute expiry on the document and returns the raw
token. -/
def createPasswordResetToken (sha256 : String → String) (rawToken : String)
    (nowMs : Nat) (u : UserDoc) : String × UserDoc :=
  (rawToken,
   { u with passwordResetToken := some (sha256 rawToken),
            passwordResetExpires := some (nowMs + 10 * 60 * 1000) })

/-- Mongoose required validator on a String path: fails on undefined and
on the empty string. -/
def requiredString : Option String → Bool
  | none => false
  | some s => !s.isEmpty

/-- Schema validation (userModel.js lines 8-51): name, email, password and
passwordConfirm are required; password has minlength 6; the
passwordConfirm custom validator demands equality with password.
Validation runs on the plaintext, before the hashing pre-save hook. -/
def validateUser (u : UserDoc) : Bool :=
  requiredString u.name && requiredString u.email &&
  requiredString u.password &&
  (match u.password with
   | some p => decide (6 ≤ p.length)
   | none => false) &&
  requiredString u.passwordConfirm &&
  (u.passwordConfirm == u.password)

/-- Failures surfaced to the transport boundary. appError carries the
message and HTTP status of an AppError; validationError is a Mongoose
validation rejection propagated by asyncHandler; tokenVerifyError is a
jwt.verify rejection propagated by asyncHandler. -/
inductive Failure where
  | appError (message : String) (statusCode : Nat)
  | validationError
  | tokenVerifyError
deriving Repr, DecidableEq

/-- Document save. Mongoose runs schema validation first (skipped when the
save passes validateBeforeSave false), then the pre-save hook of
userModel.js lines 79-98: when the password path was modified it is
bcrypt-hashed, passwordConfirm is dropped, and on a non-new document
passwordChangedAt is set to Date.now() - 1000 (the one-second back-off). -/
def saveUser (bcryptHash : String → String) (nowMs : Nat)
    (isNew passwordModified validate : Bool) (u : UserDoc) :
    Except Failure UserDoc :=
  if validate && !validateUser u then .error .validationError
  else if passwordModified then
    .ok { u with password := u.password.map bcryptHash,
                 passwordConfirm := none,
                 passwordChangedAt :=
                   if isNew then u.passwordChangedAt else some (nowMs - 1000) }
  else .ok u

/-- Modelled from the spec: utilities/createToken.js is not under src.
Spec section 4.3: issue(subjectId, now) produces a signed token encoding
the subject id and the issuance time. -/
structure SessionToken where
  subjectId : Nat
  issuedAt : Nat
deriving Repr, DecidableEq

/-- Modelled from the spec: utilities/createToken.js is not under src; the
codec issues a signed token for the given subject id at the given time. -/
def createToken (subjectId : Nat) (nowSec : Nat) : SessionToken :=
  ⟨subjectId, nowSec⟩

/-- Response envelope of the authentication endpoints: a success status
with the issued token and the returned user representation, or a
failure. -/
inductive AuthResult where
  | success (statusCode : Nat) (token : SessionToken) (user : UserDoc)
  | failure (f : Failure)
deriving Repr, DecidableEq

/-- Outcome of an email dispatch attempt (the Notifier resolves success or
failure only). -/
inductive DispatchOutcome where
  | delivered
  | dispatchFailed
deriving Repr, DecidableEq

/-- sendTokenResponse (authController.js lines 13-22): creates a session
token for the user id and answers with status, token and user. -/
def sendTokenResponse (nowSec : Nat) (user : UserDoc) (statusCode : Nat) :
    AuthResult :=
  .success statusCode (createToken user.id nowSec) user

/-- signUp (authController.js lines 25-47). User.create persists a new
document through the full save pipeline; on success the in-memory copy has
its password set to undefined, a welcome email is dispatched, and both the
fulfilled and the rejected branch of that dispatch send the same 201 token
response. Returns the persisted record (none when creation failed) next to
the response. -/
def signUp (bcryptHash : String → String) (nowMs nowSec freshId : Nat)
    (name email password passwordConfirm : Option String)
    (dispatch : DispatchOutcome) : Option UserDoc × AuthResult :=
  let doc : UserDoc :=
    ⟨freshId, name, email, password, passwordConfirm, "user", none, none, none⟩
  match saveUser bcryptHash nowMs true true true doc with
  | .error e => (none, .failure e)
  | .ok newUser =>
    let stripped := { newUser with password := none }
    match dispatch with
    | .delivered => (some newUser, sendTokenResponse nowSec stripped 201)
    | .dispatchFailed => (some newUser, sendTokenResponse nowSec stripped 201)

/-- bcrypt.compare of an entered plaintext against the stored hash, as
invoked by passwordMatching (userModel.js lines 54-56): a comparison
against an absent stored hash cannot succeed. -/
def storedPasswordMatches (pm : String → String → Bool) (entered : String)
    (stored : Option String) : Bool :=
  match stored with
  | some s => pm entered s
  | none => false

/-- login (authController.js lines 50-74). findByEmail models User.findOne
with the password selected; pm models bcrypt.compare. A falsy email or
password answers 400; an unknown email and a failed password comparison
both answer the same 401; on success the password is stripped and a token
response sent. -/
def login (pm : String → String → Bool) (nowSec : Nat)
    (findByEmail : String → Option UserDoc)
    (email password : Option String) : AuthResult :=
  match email, password with
  | some e, some p =>
    if e.isEmpty || p.isEmpty then
      .failure (.appError "Please provide valid email and password." 400)
    else
      match findByEmail e with
      | none => .failure (.appError "Invalid email or password" 401)
      | some user =>
        if !(storedPasswordMatches pm p user.password) then
          .failure (.appError "Invalid email or password" 401)
        else
          sendTokenResponse nowSec { user with password := none } 200
  | _, _ => .failure (.appError "Please provide valid email and password." 400)

/-- Split of a character list at every occurrence of a separator
character: the behavior of the JS String.prototype.split with a
one-character separator. -/
def splitOnChar (c : Char) : List Char → List (List Char)
  | [] => [[]]
  | x :: xs =>
    if x = c then [] :: splitOnChar c xs
    else
      match splitOnChar c xs with
      | [] => [[x]]
      | y :: ys => (x :: y) :: ys

/-- Bearer-token extraction of protect (authController.js lines 91-97):
defined only when the authorization header exists and starts with Bearer;
the token is the second space-separated piece of the header. -/
def extractToken (authHeader : Option String) : Option String :=
  match authHeader with
  | some h =>
    if "Bearer".data.isPrefixOf h.data then
      ((splitOnChar ' ' h.data).get? 1).map (fun l => ⟨l⟩)
    else none
  | none => none

/-- Payload of a verified session token: subject id and issued-at time in
seconds, as decoded by jwt.verify. -/
structure Decoded where
  id : Nat
  iat : Nat
deriving Repr, DecidableEq

/-- Outcome of the access gate: the request proceeds with the resolved
user attached, or is short-circuited with a failure. -/
inductive ProtectResult where
  | granted (user : UserDoc)
  | denied (f : Failure)
deriving Repr, DecidableEq

/-- protect (authController.js lines 89-130). verify models jwt.verify
(none is a rejection, surfaced by asyncHandler as tokenVerifyError);
findById models User.findById. A missing or empty extracted token is falsy
in JS, hence the isEmpty test on the extracted piece. -/
def protect (verify : String → Option Decoded)
    (findById : Nat → Option UserDoc) (authHeader : Option String) :
    ProtectResult :=
  match extractToken authHeader with
  | none =>
    .denied (.appError "You are not logged in! Please log in to get access." 401)
  | some t =>
    if t.isEmpty then
      .denied (.appError "You are not logged in! Please log in to get access." 401)
    else
      match verify t with
      | none => .denied .tokenVerifyError
      | some decoded =>
        match findById decoded.id with
        | none =>
          .denied (.appError "The user belonging to this token no longer exists." 401)
        | some currentUser =>
          if changedPasswordAfter currentUser decoded.iat then
            .denied (.appError "User recently changed the password! Please log in again." 401)
          else
            .granted currentUser

/-- Response envelope of forgetPassword, which returns a message rather
than a token on success. -/
inductive WorkflowResult where
  | ok (statusCode : Nat) (message : String)
  | failure (f : Failure)
deriving Repr, DecidableEq

/-- forgetPassword (authController.js lines 133-177). lookup models
User.findOne by email; rawToken stands for the crypto.randomBytes output;
dispatch is the outcome of sendPasswordResetEmail. Both saves pass
validateBeforeSave false and leave the password path untouched. Returns
the persisted record (none when the email is unknown) next to the
response. -/
def forgetPassword (sha256 bcryptHash : String → String) (rawToken : String)
    (nowMs : Nat) (lookup : Option UserDoc) (dispatch : DispatchOutcome) :
    Option UserDoc × WorkflowResult :=
  match lookup with
  | none =>
    (none, .failure (.appError "There is no user with this email address." 404))
  | some user =>
    let issued := (createPasswordResetToken sha256 rawToken nowMs user).2
    match saveUser bcryptHash nowMs false false false issued with
    | .error e => (some user, .failure e)
    | .ok saved =>
      match dispatch with
      | .delivered => (some saved, .ok 200 "Token sent to email.")
      | .dispatchFailed =>
        let cleared :=
          { saved with passwordResetToken := none, passwordResetExpires := none }
        match saveUser bcryptHash nowMs false false false cleared with
        | .error e => (some saved, .failure e)
        | .ok cleared2 =>
          (some cleared2,
           .failure (.appError "There was an error sending the email. Please try again later." 503))

/-- The lookup condition of resetPassword (authController.js lines
182-186): the stored passwordResetToken equals the sha256 digest of the
presented token AND the stored passwordResetExpires is strictly in the
future; an absent field satisfies neither condition. -/
def resetTokenMatches (sha256 : String → String) (presented : String)
    (u : UserDoc) (nowMs : Nat) : Bool :=
  (u.passwordResetToken == some (sha256 presented)) &&
  (match u.passwordResetExpires with
   | some e => decide (nowMs < e)
   | none => false)

/-- resetPassword (authController.js lines 180-202) over a single-user
store: the findOne of the source returns the user exactly when the stored
hash/expiry pair matches the presented token now. On a match the new
password and confirmation are set, the reset fields cleared and the
document saved through the full pipeline; the response strips the
password. Returns the persisted store next to the response. -/
def resetPassword (sha256 bcryptHash : String → String)
    (store : Option UserDoc) (presentedToken : String)
    (newPassword newPasswordConfirm : Option String) (nowMs nowSec : Nat) :
    Option UserDoc × AuthResult :=
  match store with
  | some user =>
    if resetTokenMatches sha256 presentedToken user nowMs then
      let updated :=
        { user with password := newPassword,
                    passwordConfirm := newPasswordConfirm,
                    passwordResetToken := none,
                    passwordResetExpires := none }
      match saveUser bcryptHash nowMs false true true updated with
      | .error e => (some user, .failure e)
      | .ok saved =>
        (some saved, sendTokenResponse nowSec { saved with password := none } 200)
    else
      (some user,
       .failure (.appError "Token is invalid or has expired. Please request a new password reset." 400))
  | none =>
    (none,
     .failure (.appError "Token is invalid or has expired. Please request a new password reset." 400))

/-- updatePassword (authController.js lines 205-225): the authenticated
user is refetched with the stored password hash selected; bcrypt.compare
of the entered current password against it gates the update; then the new
password and confirmation are saved through the full pipeline and the
response strips the password. Returns the persisted record next to the
response. -/
def updatePassword (bcryptHash : String → String)
    (pm : String → String → Bool) (user : UserDoc) (currentPassword : String)
    (newPassword newPasswordConfirm : Option String) (nowMs nowSec : Nat) :
    Option UserDoc × AuthResult :=
  if !(storedPasswordMatches pm currentPassword user.password) then
    (some user, .failure (.appError "Your current password is incorrect" 401))
  else
    let updated :=
      { user with password := newPassword,
                  passwordConfirm := newPasswordConfirm }
    match saveUser bcryptHash nowMs false true true updated with
    | .error e => (some user, .failure e)
    | .ok saved =>
      (some saved, sendTokenResponse nowSec { saved with password := none } 200)

/-- A lookup that finds no user, for concrete scenarios. -/
def noUserByEmail : String → Option UserDoc := fun _ => none

/-- A password comparison that always fails, for concrete scenarios. -/
def alwaysReject : String → String → Bool := fun _ _ => false

/-- The identity digest, an injective stand-in hash for concrete
scenarios. -/
def idHash : String → String := fun s => s

/-- A concrete valid user record for concrete scenarios. -/
def baseUser : UserDoc :=
  ⟨1, some "Alice", some "a@b.c", some "secret1", none, "user", none, none, none⟩

/-- A verifier that accepts every token with a fixed payload, for concrete
scenarios. -/
def verifyFixed (d : Decoded) : String → Option Decoded := fun _ => some d

/-- A store in which every id resolves to a fixed user, for concrete
scenarios. -/
def findFixed (u : UserDoc) : Nat → Option UserDoc := fun _ => some u

/-- A concrete user document before a password change, for concrete
scenarios. -/
def cexUserBefore : UserDoc :=
  ⟨1, some "Alice", some "a@b.c", some "newpass1", some "newpass1", "user",
   none, none, none⟩

/-- The document of cexUserBefore after the save pipeline persisted a
password change at 2000000 ms: the stored passwordChangedAt carries the
one-second back-off (1999000 ms). -/
def cexUserChanged : UserDoc :=
  ⟨1, some "Alice", some "a@b.c", some "newpass1", none, "user",
   some 1999000, none, none⟩

/-- Claim C1, counterexample: the three login failure cases are not
identical. A login with the email absent answers status 400 with the
message about providing email and password, while a login with an unknown
email answers status 401 with the generic invalid-credentials message, so
the absent-credentials case is distinguishable from the other two. -/
theorem claim1_absent_credentials_cex :
    login alwaysReject 0 noUserByEmail none (some "secret1") =
      .failure (.appError "Please provide valid email and password." 400) ∧
    login alwaysReject 0 noUserByEmail (some "a@b.c") (some "secret1") =
      .failure (.appError "Invalid email or password" 401) ∧
    (400 : Nat) ≠ 401 := by
  refine ⟨by decide, by decide, by decide⟩

/-- Claim C1 (amended): only the unknown-email and wrong-password failures
are indistinguishable — both answer exactly status 401 with the same
generic message. An absent (or empty) email or password instead answers
status 400 with a different message, so that case is distinguishable. -/
theorem claim1_login_error_uniformity
    (pm : String → String → Bool) (nowSec : Nat)
    (findByEmail : String → Option UserDoc) (email password : Option String) :
    ((truthy email && truthy password) = false →
      login pm nowSec findByEmail email password =
        .failure (.appError "Please provide valid email and password." 400)) ∧
    (∀ e p, email = some e → password = some p →
      e.isEmpty = false → p.isEmpty = false → findByEmail e = none →
      login pm nowSec findByEmail email password =
        .failure (.appError "Invalid email or password" 401)) ∧
    (∀ e p user, email = some e → password = some p →
      e.isEmpty = false → p.isEmpty = false → findByEmail e = some user →
      storedPasswordMatches pm p user.password = false →
      login pm nowSec findByEmail email password =
        .failure (.appError "Invalid email or password" 401)) := by
  refine ⟨?_, ?_, ?_⟩
  · intro h
    cases email with
    | none => simp [login]
    | some e =>
      cases password with
      | none => simp [login]
      | some p =>
        have hb : (e.isEmpty || p.isEmpty) = true := by
          revert h
          simp only [truthy]
          cases e.isEmpty <;> cases p.isEmpty <;> simp
        simp [login, hb]
  · intro e p he hp hee hpe hfind
    subst he; subst hp
    simp [login, hee, hpe, hfind]
  · intro e p user he hp hee hpe hfind hmatch
    subst he; subst hp
    simp [login, hee, hpe, hfind, hmatch]

/-- Claim C1 witness: a concrete unknown-email login answers the generic
401 failure. -/
theorem claim1_login_error_uniformity_witness :
    login alwaysReject 0 noUserByEmail (some "x@y.z") (some "secret1") =
      .failure (.appError "Invalid email or password" 401) :=
  (claim1_login_error_uniformity alwaysReject 0 noUserByEmail
      (some "x@y.z") (some "secret1")).2.1 "x@y.z" "secret1" rfl rfl
    (by decide) (by decide) rfl

/-- Claim C2, counterexample: a password change persisted at wall time
2000000 ms (t1 = 2000 s) stores passwordChangedAt = 1999000 ms because of
the one-second back-off in the save hook, so a validly verified, resolved
token with issuedAt = 1999 s — strictly before t1 — is NOT rejected as
stale: the gate grants access. -/
theorem claim2_one_second_window_cex :
    saveUser idHash 2000000 false true true cexUserBefore =
      .ok cexUserChanged ∧
    1999 < 2000 ∧
    protect (verifyFixed ⟨1, 1999⟩) (findFixed cexUserChanged)
      (some "Bearer x") = .granted cexUserChanged := by
  refine ⟨rfl, by decide, rfl⟩

/-- Claim C2 (amended): after a password change persisted at wall time
changeMs, any otherwise-valid token whose issued-at lies more than one
second before the change (issuedAt * 1000 + 1000 < changeMs) is rejected
by the gate with the stale-password 401; tokens issued within the final
second before the change escape the check because the stored
passwordChangedAt is backed off by one second. -/
theorem claim2_stale_after_one_second
    (bcryptHash : String → String) (changeMs : Nat) (u0 u1 : UserDoc)
    (hsave : saveUser bcryptHash changeMs false true true u0 = .ok u1)
    (verify : String → Option Decoded) (findById : Nat → Option UserDoc)
    (authHeader : Option String) (t : String) (d : Decoded)
    (hextract : extractToken authHeader = some t) (hne : t.isEmpty = false)
    (hverify : verify t = some d) (hfind : findById d.id = some u1)
    (hiat : d.iat * 1000 + 1000 < changeMs) :
    protect verify findById authHeader =
      .denied (.appError "User recently changed the password! Please log in again." 401) := by
  have hchanged : u1.passwordChangedAt = some (changeMs - 1000) := by
    unfold saveUser at hsave
    by_cases hv : validateUser u0 = true
    · simp [hv] at hsave
      rw [← hsave]
    · simp [hv] at hsave
  have hstale : changedPasswordAfter u1 d.iat = true := by
    simp [changedPasswordAfter, hchanged]
    omega
  simp [protect, hextract, hne, hverify, hfind, hstale]

/-- Claim C2 witness: a concrete token issued at 1997 s, two seconds
before the change at 2000 s, is rejected as stale. -/
theorem claim2_stale_after_one_second_witness :
    protect (verifyFixed ⟨1, 1997⟩) (findFixed cexUserChanged)
      (some "Bearer x") =
      .denied (.appError "User recently changed the password! Please log in again." 401) :=
  claim2_stale_after_one_second idHash 2000000 cexUserBefore cexUserChanged
    rfl (verifyFixed ⟨1, 1997⟩) (findFixed cexUserChanged)
    (some "Bearer x") "x" ⟨1, 1997⟩ rfl (by decide) rfl rfl
    (by decide)

/-- A store in which no id resolves to a user, for concrete scenarios. -/
def noUserById : Nat → Option UserDoc := fun _ => none

/-- The record persisted by the concrete sign-up of the claim C3 witness. -/
def signedUpUser : UserDoc :=
  ⟨7, some "Bob", some "b@c.d", some "secret1", none, "user", none, none, none⟩

/-- Claim C3: whenever user creation succeeds, signUp answers 201 with a
session token and the created user with the password field absent, and the
same response is produced whether the welcome dispatch succeeded or
failed. -/
theorem claim3_signup_token_and_stripped_password
    (bcryptHash : String → String) (nowMs nowSec freshId : Nat)
    (name email password passwordConfirm : Option String) (newUser : UserDoc)
    (hcreate : saveUser bcryptHash nowMs true true true
        ⟨freshId, name, email, password, passwordConfirm, "user", none, none, none⟩
      = .ok newUser) (dispatch : DispatchOutcome) :
    signUp bcryptHash nowMs nowSec freshId name email password passwordConfirm
        dispatch =
      (some newUser,
       .success 201 (createToken newUser.id nowSec)
         { newUser with password := none }) ∧
    ({ newUser with password := none } : UserDoc).password = none := by
  constructor
  · simp only [signUp]
    rw [hcreate]
    cases dispatch <;> simp [sendTokenResponse]
  · rfl

/-- Claim C3 witness: a concrete valid sign-up whose welcome dispatch
failed still answers 201 with a token and a password-free user. -/
theorem claim3_signup_token_and_stripped_password_witness :
    (signUp idHash 5000 5 7 (some "Bob") (some "b@c.d") (some "secret1")
        (some "secret1") .dispatchFailed =
      (some signedUpUser,
       .success 201 (createToken signedUpUser.id 5)
         { signedUpUser with password := none })) ∧
    ({ signedUpUser with password := none } : UserDoc).password = none :=
  claim3_signup_token_and_stripped_password idHash 5000 5 7 (some "Bob")
    (some "b@c.d") (some "secret1") (some "secret1") signedUpUser rfl
    .dispatchFailed

/-- Claim C4: the access gate denies with the not-logged-in 401 when no
(or an empty) bearer token is extracted, denies with the user-gone 401
when the verified subject id resolves to no user, denies with the
stale-password 401 when the password-changed check fires, and grants
access only when a token was extracted, verified, its subject resolved,
and the stale-password check is false. -/
theorem claim4_access_gate_cases
    (verify : String → Option Decoded) (findById : Nat → Option UserDoc)
    (authHeader : Option String) :
    ((extractToken authHeader = none ∨ extractToken authHeader = some "") →
      protect verify findById authHeader =
        .denied (.appError "You are not logged in! Please log in to get access." 401)) ∧
    (∀ t d, extractToken authHeader = some t → t.isEmpty = false →
      verify t = some d → findById d.id = none →
      protect verify findById authHeader =
        .denied (.appError "The user belonging to this token no longer exists." 401)) ∧
    (∀ t d u, extractToken authHeader = some t → t.isEmpty = false →
      verify t = some d → findById d.id = some u →
      changedPasswordAfter u d.iat = true →
      protect verify findById authHeader =
        .denied (.appError "User recently changed the password! Please log in again." 401)) ∧
    (∀ u, protect verify findById authHeader = .granted u →
      ∃ t d, extractToken authHeader = some t ∧ t.isEmpty = false ∧
        verify t = some d ∧ findById d.id = some u ∧
        changedPasswordAfter u d.iat = false) := by
  refine ⟨?_, ?_, ?_, ?_⟩
  · rintro (h | h) <;>
      simp [protect, h, show ("" : String).isEmpty = true from rfl]
  · intro t d ht hne hv hf
    simp [protect, ht, hne, hv, hf]
  · intro t d u ht hne hv hf hch
    simp [protect, ht, hne, hv, hf, hch]
  · intro u hg
    unfold protect at hg
    cases hE : extractToken authHeader with
    | none => rw [hE] at hg; simp at hg
    | some t =>
      rw [hE] at hg
      dsimp only at hg
      cases hne : t.isEmpty with
      | true => rw [if_pos (by simp [hne])] at hg; simp at hg
      | false =>
        rw [if_neg (by simp [hne])] at hg
        cases hV : verify t with
        | none => rw [hV] at hg; simp at hg
        | some d =>
          rw [hV] at hg
          dsimp only at hg
          cases hF : findById d.id with
          | none => rw [hF] at hg; simp at hg
          | some u2 =>
            rw [hF] at hg
            dsimp only at hg
            cases hch : changedPasswordAfter u2 d.iat with
            | true => rw [if_pos (by simp [hch])] at hg; simp at hg
            | false =>
              rw [if_neg (by simp [hch])] at hg
              injection hg with h2
              subst h2
              exact ⟨t, d, rfl, hne, hV, hF, hch⟩

/-- Claim C4 witness: a concrete request whose verified subject id
resolves to no user is denied with the user-gone 401. -/
theorem claim4_access_gate_cases_witness :
    protect (verifyFixed ⟨5, 10⟩) noUserById (some "Bearer abc") =
      .denied (.appError "The user belonging to this token no longer exists." 401) :=
  (claim4_access_gate_cases (verifyFixed ⟨5, 10⟩) noUserById
      (some "Bearer abc")).2.1 "abc" ⟨5, 10⟩ rfl rfl rfl rfl

/-- Claim C9: a user whose passwordChangedAt is absent makes
changedPasswordAfter false at every issued-at value, so the access gate
never rejects that user with the stale-password failure: with a present
token, a successful verification and a resolving subject id it grants
access. -/
theorem claim9_no_change_timestamp_never_stale
    (u : UserDoc) (hnone : u.passwordChangedAt = none) :
    (∀ iat, changedPasswordAfter u iat = false) ∧
    (∀ (verify : String → Option Decoded) (findById : Nat → Option UserDoc)
       (authHeader : Option String) (t : String) (d : Decoded),
       extractToken authHeader = some t → t.isEmpty = false →
       verify t = some d → findById d.id = some u →
       protect verify findById authHeader = .granted u) := by
  have hch : ∀ iat, changedPasswordAfter u iat = false := by
    intro iat
    simp [changedPasswordAfter, hnone]
  refine ⟨hch, ?_⟩
  intro verify findById authHeader t d ht hne hv hf
  simp [protect, ht, hne, hv, hf, hch]

/-- Claim C9 witness: a concrete user who never changed their password is
granted access by the gate. -/
theorem claim9_no_change_timestamp_never_stale_witness :
    protect (verifyFixed ⟨1, 50⟩) (findFixed baseUser) (some "Bearer t") =
      .granted baseUser :=
  (claim9_no_change_timestamp_never_stale baseUser rfl).2
    (verifyFixed ⟨1, 50⟩) (findFixed baseUser) (some "Bearer t") "t"
    ⟨1, 50⟩ rfl rfl rfl rfl

/-- Claim C5: for the stored pair produced by issuing a reset token with
raw value raw at issueMs, presenting raw at nowMs matches exactly when
nowMs is strictly before the stored expiry (issueMs plus 10 minutes);
presenting any other raw value never matches, for an injective digest. -/
theorem claim5_reset_roundtrip
    (sha256 : String → String) (hinj : Function.Injective sha256)
    (u : UserDoc) (raw : String) (issueMs : Nat) :
    (∀ nowMs,
      resetTokenMatches sha256 raw
        (createPasswordResetToken sha256 raw issueMs u).2 nowMs = true ↔
      nowMs < issueMs + 10 * 60 * 1000) ∧
    (∀ other nowMs, other ≠ raw →
      resetTokenMatches sha256 other
        (createPasswordResetToken sha256 raw issueMs u).2 nowMs = false) := by
  constructor
  · intro nowMs
    simp [resetTokenMatches, createPasswordResetToken]
  · intro other nowMs hne
    have h2 : (sha256 raw == sha256 other) = false := by
      refine beq_eq_false_iff_ne.mpr ?_
      exact fun h => hne (hinj h).symm
    simp [resetTokenMatches, createPasswordResetToken, h2]

/-- Claim C5 witness: a concrete issued token matches its own raw value
five milliseconds after issuance. -/
theorem claim5_reset_roundtrip_witness :
    resetTokenMatches idHash "tok1"
      (createPasswordResetToken idHash "tok1" 0 baseUser).2 5 = true :=
  ((claim5_reset_roundtrip idHash (fun a b h => h) baseUser "tok1" 0).1
    5).mpr (by decide)

/-- Claim C6: when the user exists and the reset-email dispatch fails,
forgetPassword persists the record with both reset fields cleared and
answers the delivery failure with status 503. -/
theorem claim6_failed_dispatch_clears_reset_state
    (sha256 bcryptHash : String → String) (rawToken : String) (nowMs : Nat)
    (user : UserDoc) :
    forgetPassword sha256 bcryptHash rawToken nowMs (some user)
        .dispatchFailed =
      (some { user with passwordResetToken := none,
                        passwordResetExpires := none },
       .failure (.appError "There was an error sending the email. Please try again later." 503)) ∧
    ({ user with passwordResetToken := none,
                 passwordResetExpires := none } : UserDoc).passwordResetToken
      = none ∧
    ({ user with passwordResetToken := none,
                 passwordResetExpires := none } : UserDoc).passwordResetExpires
      = none := by
  refine ⟨?_, rfl, rfl⟩
  cases user with
  | mk i nm em pw pc rl ca rt rx =>
    simp [forgetPassword, createPasswordResetToken, saveUser]

/-- The document persisted by a successful resetPassword: new hashed
password, confirmation dropped, passwordChangedAt stamped with the
one-second back-off, both reset fields cleared. -/
def resetSaved (bcryptHash : String → String) (user : UserDoc)
    (newPassword : Option String) (nowMs : Nat) : UserDoc :=
  { user with password := newPassword.map bcryptHash,
              passwordConfirm := none,
              passwordChangedAt := some (nowMs - 1000),
              passwordResetToken := none,
              passwordResetExpires := none }

/-- Claim C7: a reset token is one-time-use. When the stored pair matches
the presented raw token and the password update passes validation, the
first resetPassword call succeeds — persisting the new hashed password and
clearing both reset fields — and a second call with the same raw token on
the resulting store fails with the invalid-or-expired 400 and changes
nothing. -/
theorem claim7_reset_token_single_use
    (sha256 bcryptHash : String → String) (user : UserDoc) (raw : String)
    (newPassword newPasswordConfirm : Option String)
    (now1 now2 nowSec1 nowSec2 : Nat)
    (hmatch : resetTokenMatches sha256 raw user now1 = true)
    (hvalid : validateUser
      { user with password := newPassword,
                  passwordConfirm := newPasswordConfirm,
                  passwordResetToken := none,
                  passwordResetExpires := none } = true) :
    resetPassword sha256 bcryptHash (some user) raw newPassword
        newPasswordConfirm now1 nowSec1 =
      (some (resetSaved bcryptHash user newPassword now1),
       .success 200 (createToken user.id nowSec1)
         { resetSaved bcryptHash user newPassword now1 with
             password := none }) ∧
    (resetSaved bcryptHash user newPassword now1).passwordResetToken
      = none ∧
    (resetSaved bcryptHash user newPassword now1).passwordResetExpires
      = none ∧
    (resetSaved bcryptHash user newPassword now1).password
      = newPassword.map bcryptHash ∧
    resetPassword sha256 bcryptHash
        (some (resetSaved bcryptHash user newPassword now1)) raw newPassword
        newPasswordConfirm now2 nowSec2 =
      (some (resetSaved bcryptHash user newPassword now1),
       .failure (.appError "Token is invalid or has expired. Please request a new password reset." 400)) := by
  refine ⟨?_, rfl, rfl, rfl, ?_⟩
  · cases user with
    | mk i nm em pw pc rl ca rt rx =>
      simp [resetPassword, hmatch, saveUser, hvalid, resetSaved,
        sendTokenResponse]
  · have hnm : resetTokenMatches sha256 raw
        (resetSaved bcryptHash user newPassword now1) now2 = false := rfl
    simp [resetPassword, hnm]

/-- Claim C7 witness: a concrete reset with a matching stored pair
succeeds once, and the second presentation of the same raw token fails
with the 400 failure. -/
theorem claim7_reset_token_single_use_witness :
    resetPassword idHash idHash (some
        ⟨1, some "Alice", some "a@b.c", some "secret1", none, "user", none,
         some "tok1", some 600000⟩) "tok1" (some "newpass1")
        (some "newpass1") 5000 5 =
      (some (resetSaved idHash
        ⟨1, some "Alice", some "a@b.c", some "secret1", none, "user", none,
         some "tok1", some 600000⟩ (some "newpass1") 5000),
       .success 200 (createToken 1 5)
         { resetSaved idHash
             ⟨1, some "Alice", some "a@b.c", some "secret1", none, "user",
              none, some "tok1", some 600000⟩ (some "newpass1") 5000 with
             password := none }) ∧
    resetPassword idHash idHash (some (resetSaved idHash
        ⟨1, some "Alice", some "a@b.c", some "secret1", none, "user", none,
         some "tok1", some 600000⟩ (some "newpass1") 5000)) "tok1"
        (some "newpass1") (some "newpass1") 6000 6 =
      (some (resetSaved idHash
        ⟨1, some "Alice", some "a@b.c", some "secret1", none, "user", none,
         some "tok1", some 600000⟩ (some "newpass1") 5000),
       .failure (.appError "Token is invalid or has expired. Please request a new password reset." 400)) := by
  have h := claim7_reset_token_single_use idHash idHash
    ⟨1, some "Alice", some "a@b.c", some "secret1", none, "user", none,
     some "tok1", some 600000⟩ "tok1" (some "newpass1") (some "newpass1")
    5000 6000 5 6 rfl rfl
  exact ⟨h.1, h.2.2.2.2⟩

/-- Claim C8: issuing a second reset token overwrites the stored pair:
the state after the two issuances equals the state after the second
alone, the first raw token no longer matches at any time, and the second
matches exactly until its own expiry, for an injective digest. -/
theorem claim8_reissue_overwrites_prior
    (sha256 : String → String) (hinj : Function.Injective sha256)
    (u : UserDoc) (raw1 raw2 : String) (n1 n2 : Nat) (hne : raw1 ≠ raw2) :
    (createPasswordResetToken sha256 raw2 n2
        (createPasswordResetToken sha256 raw1 n1 u).2).2 =
      (createPasswordResetToken sha256 raw2 n2 u).2 ∧
    (∀ nowMs, resetTokenMatches sha256 raw1
        (createPasswordResetToken sha256 raw2 n2
          (createPasswordResetToken sha256 raw1 n1 u).2).2 nowMs = false) ∧
    (∀ nowMs, resetTokenMatches sha256 raw2
        (createPasswordResetToken sha256 raw2 n2
          (createPasswordResetToken sha256 raw1 n1 u).2).2 nowMs = true ↔
      nowMs < n2 + 10 * 60 * 1000) := by
  refine ⟨?_, ?_, ?_⟩
  · cases u with
    | mk i nm em pw pc rl ca rt rx => simp [createPasswordResetToken]
  · intro nowMs
    have h2 : (sha256 raw2 == sha256 raw1) = false := by
      refine beq_eq_false_iff_ne.mpr ?_
      exact fun h => hne (hinj h).symm
    simp [resetTokenMatches, createPasswordResetToken, h2]
  · intro nowMs
    simp [resetTokenMatches, createPasswordResetToken]

/-- Claim C8 witness: after a concrete reissuance the first raw token no
longer matches. -/
theorem claim8_reissue_overwrites_prior_witness :
    resetTokenMatches idHash "tokA"
      (createPasswordResetToken idHash "tokB" 100
        (createPasswordResetToken idHash "tokA" 0 baseUser).2).2 50 = false :=
  (claim8_reissue_overwrites_prior idHash (fun a b h => h) baseUser "tokA"
    "tokB" 0 100 (by decide)).2.1 50

/-- Claim C10: every password-persisting operation rejects a new password
shorter than 6 characters with a validation failure and persists nothing
new: sign-up yields no record, and reset-password (on a matching token)
and update-password (on a correct current password) leave the stored
record unchanged. -/
theorem claim10_password_minlength
    (bcryptHash : String → String) (p : String) (hshort : p.length < 6) :
    (∀ nowMs nowSec freshId name email passwordConfirm dispatch,
      signUp bcryptHash nowMs nowSec freshId name email (some p)
        passwordConfirm dispatch = (none, .failure .validationError)) ∧
    (∀ (sha256 : String → String) (user : UserDoc) raw passwordConfirm
        nowMs nowSec,
      resetTokenMatches sha256 raw user nowMs = true →
      resetPassword sha256 bcryptHash (some user) raw (some p)
        passwordConfirm nowMs nowSec =
        (some user, .failure .validationError)) ∧
    (∀ (pm : String → String → Bool) (user : UserDoc) currentPassword
        passwordConfirm nowMs nowSec,
      storedPasswordMatches pm currentPassword user.password = true →
      updatePassword bcryptHash pm user currentPassword (some p)
        passwordConfirm nowMs nowSec =
        (some user, .failure .validationError)) := by
  have hnot : ¬ (6 ≤ p.length) := Nat.not_le.mpr hshort
  refine ⟨?_, ?_, ?_⟩
  · intro nowMs nowSec freshId name email passwordConfirm dispatch
    simp [signUp, saveUser, validateUser, hnot]
  · intro sha256 user raw passwordConfirm nowMs nowSec hm
    simp [resetPassword, hm, saveUser, validateUser, hnot]
  · intro pm user currentPassword passwordConfirm nowMs nowSec hm
    simp [updatePassword, hm, saveUser, validateUser, hnot]

/-- Claim C10 witness: a concrete sign-up with a three-character password
fails with a validation error and persists no record. -/
theorem claim10_password_minlength_witness :
    signUp idHash 0 0 1 (some "Bob") (some "b@c.d") (some "abc")
        (some "abc") .delivered = (none, .failure .validationError) :=
  (claim10_password_minlength idHash "abc" (by decide)).1 0 0 1
    (some "Bob") (some "b@c.d") (some "abc") .delivered

end JobsHub
